import Mathlib

/-!
Verification of the `nice` library: cross-platform process/thread scheduling
priority control. The library exposes two operations, `nice` (set priority by
delta on Unix, by level code on Windows) and `get_current_process_priority`,
each with a Unix branch and a Windows branch selected at compile time.

The OS-facing native facilities (`libc::nice`, `getpriority`/errno,
`SetThreadPriority`, `GetThreadPriority`) are modelled as explicit
state-passing functions over small environment structures; the library code
itself is embedded faithfully from `src/lib.rs`.
-/

/-- Status codes of the library's error type (the two used by this crate). -/
inductive NapiStatus where
  | InvalidArg
  | GenericFailure
deriving DecidableEq, Repr

/-- An error value: a status plus a reason message. -/
structure NapiError where
  status : NapiStatus
  reason : String
deriving DecidableEq, Repr

/-- The `WindowsThreadPriority` enum from `src/lib.rs`, with the nine variants
and their integer discriminants. -/
inductive WindowsThreadPriority where
  | ThreadModeBackgroundBegin
  | ThreadModeBackgroundEnd
  | ThreadPriorityAboveNormal
  | ThreadPriorityBelowNormal
  | ThreadPriorityHighest
  | ThreadPriorityIdle
  | ThreadPriorityLowest
  | ThreadPriorityNormal
  | ThreadPriorityTimeCritical
deriving DecidableEq, Repr

/-- The integer discriminant of each variant (the Rust `priority as i32` cast). -/
def WindowsThreadPriority.toI32 : WindowsThreadPriority → Int
  | .ThreadModeBackgroundBegin => 0x00010000
  | .ThreadModeBackgroundEnd => 0x00020000
  | .ThreadPriorityAboveNormal => 1
  | .ThreadPriorityBelowNormal => -1
  | .ThreadPriorityHighest => 2
  | .ThreadPriorityIdle => -15
  | .ThreadPriorityLowest => -2
  | .ThreadPriorityNormal => 0
  | .ThreadPriorityTimeCritical => 15

/-- Embedding of `impl TryFrom<i32> for WindowsThreadPriority` from
`src/lib.rs`: the match over the nine recognized codes, with the
default arm producing an `InvalidArg` error whose message interpolates the
rejected value. -/
def tryFromI32 (value : Int) : Except NapiError WindowsThreadPriority :=
  if value = 0x00010000 then Except.ok .ThreadModeBackgroundBegin
  else if value = 0x00020000 then Except.ok .ThreadModeBackgroundEnd
  else if value = 1 then Except.ok .ThreadPriorityAboveNormal
  else if value = -1 then Except.ok .ThreadPriorityBelowNormal
  else if value = 2 then Except.ok .ThreadPriorityHighest
  else if value = -15 then Except.ok .ThreadPriorityIdle
  else if value = -2 then Except.ok .ThreadPriorityLowest
  else if value = 0 then Except.ok .ThreadPriorityNormal
  else if value = 15 then Except.ok .ThreadPriorityTimeCritical
  else Except.error ⟨NapiStatus.InvalidArg, toString value ++ " is not a valid priority on Windows"⟩

/-- The nine recognized Windows priority codes, in source order. -/
def ninecodes : List Int := [0x00010000, 0x00020000, 1, -1, 2, -15, -2, 0, 15]

/-- Embedding of `impl From<WindowsThreadPriority> for THREAD_PRIORITY` from
`src/lib.rs`: the exhaustive mapping from each variant to the native
`windows` crate constant (given here by its documented integer value). -/
def toTHREAD_PRIORITY : WindowsThreadPriority → Int
  | .ThreadModeBackgroundBegin => 0x00010000
  | .ThreadModeBackgroundEnd => 0x00020000
  | .ThreadPriorityAboveNormal => 1
  | .ThreadPriorityBelowNormal => -1
  | .ThreadPriorityHighest => 2
  | .ThreadPriorityIdle => -15
  | .ThreadPriorityLowest => -2
  | .ThreadPriorityNormal => 0
  | .ThreadPriorityTimeCritical => 15

theorem tryFromI32_mem_of_ok (v : Int) (p : WindowsThreadPriority)
    (h : tryFromI32 v = Except.ok p) : v ∈ ninecodes := by
  unfold tryFromI32 at h
  split_ifs at h <;> simp_all [ninecodes]

theorem tryFromI32_toI32_of_ok (v : Int) (p : WindowsThreadPriority)
    (h : tryFromI32 v = Except.ok p) : p.toI32 = v := by
  unfold tryFromI32 at h
  split_ifs at h <;> injection h with h <;> subst h <;>
    simp_all [WindowsThreadPriority.toI32]

theorem tryFromI32_ok_of_mem (c : Int) (hc : c ∈ ninecodes) :
    ∃ p : WindowsThreadPriority, tryFromI32 c = Except.ok p ∧ p.toI32 = c := by
  fin_cases hc <;> exact ⟨_, rfl, rfl⟩

theorem tryFromI32_error_of_not_mem (v : Int) (hv : v ∉ ninecodes) :
    tryFromI32 v =
      Except.error ⟨NapiStatus.InvalidArg, toString v ++ " is not a valid priority on Windows"⟩ := by
  simp only [ninecodes, List.mem_cons, List.not_mem_nil, or_false] at hv
  push_neg at hv
  obtain ⟨h1, h2, h3, h4, h5, h6, h7, h8, h9⟩ := hv
  simp [tryFromI32, h1, h2, h3, h4, h5, h6, h7, h8, h9]

/-- C3: for each of the nine defined Windows priority codes `c`,
`try_from_integer(c)` succeeds and yields the level whose integer
representation is `c` (round-trip), and conversely every level round-trips
through its code, so the integer-to-level mapping is a bijection restricted
to exactly these nine codes. -/
theorem c3_tryFrom_roundtrip_bijection :
    (∀ c ∈ ninecodes, ∃ p : WindowsThreadPriority,
        tryFromI32 c = Except.ok p ∧ p.toI32 = c) ∧
    (∀ p : WindowsThreadPriority, tryFromI32 p.toI32 = Except.ok p) := by
  constructor
  · exact tryFromI32_ok_of_mem
  · intro p
    cases p <;> rfl

theorem c3_witness :
    ∃ p : WindowsThreadPriority, tryFromI32 2 = Except.ok p ∧ p.toI32 = 2 :=
  c3_tryFrom_roundtrip_bijection.1 2 (by decide)

/-- C4: `try_from_integer` is total and pure over all integers: exactly the
nine listed codes succeed, and every other integer fails with an
`InvalidArg` error whose message carries the literal rejected value followed
by the statement that it is not a valid priority on this platform. -/
theorem c4_tryFrom_total_validation (v : Int) :
    ((∃ p, tryFromI32 v = Except.ok p) ↔ v ∈ ninecodes) ∧
    (v ∉ ninecodes →
      tryFromI32 v =
        Except.error ⟨NapiStatus.InvalidArg, toString v ++ " is not a valid priority on Windows"⟩) := by
  constructor
  · constructor
    · rintro ⟨p, hp⟩
      exact tryFromI32_mem_of_ok v p hp
    · intro hc
      obtain ⟨p, hp, -⟩ := tryFromI32_ok_of_mem v hc
      exact ⟨p, hp⟩
  · exact tryFromI32_error_of_not_mem v

theorem c4_witness :
    tryFromI32 3 =
      Except.error ⟨NapiStatus.InvalidArg, toString (3 : Int) ++ " is not a valid priority on Windows"⟩ :=
  (c4_tryFrom_total_validation 3).2 (by decide)

/-- Modelled from the spec: the Unix process environment seen by the write
path. `niceVal` is the calling process's current niceness, `errno` the
thread-local OS error indicator, `nicePermitted` whether the OS permits the
adjustment (e.g. privilege for negative deltas), and `permErrno` the nonzero
error code the OS sets in `errno` when it refuses. -/
structure UnixEnv where
  niceVal : Int
  errno : Int
  nicePermitted : Bool
  permErrno : Int
deriving DecidableEq, Repr

/-- Modelled from the spec: the OS clamps niceness to its own range,
conventionally -20..19. -/
def clampNice (n : Int) : Int := max (-20) (min 19 n)

/-- Modelled from the spec: the native `libc::nice` adjustment facility.
On success it adds the increment to the process niceness, clamps to the OS
range, stores and returns the resulting absolute niceness; when the OS
refuses the adjustment it returns the sentinel -1 and sets `errno`. -/
def libcNice (incr : Int) (env : UnixEnv) : Int × UnixEnv :=
  if env.nicePermitted then
    let n := clampNice (env.niceVal + incr)
    (n, { env with niceVal := n })
  else
    (-1, { env with errno := env.permErrno })

/-- Result of one call to the write operation: the returned value or error
(errors carry the surfaced OS error code on Unix), the environment after the
call, and whether the native priority-changing call was attempted. -/
structure UnixWriteResult where
  result : Except Int Int
  env : UnixEnv
  osCalled : Bool
deriving Repr

/-- Embedding of the Unix branch of `nice` from `src/lib.rs`: default the
increment to 0, call `libc::nice`, and if the raw return value is -1 surface
the current OS error, otherwise return the value. -/
def nice_unix (incr : Option Int) (env : UnixEnv) : UnixWriteResult :=
  let i := incr.getD 0
  let r := libcNice i env
  if r.1 = -1 then ⟨Except.error r.2.errno, r.2, true⟩
  else ⟨Except.ok r.1, r.2, true⟩

/-- Modelled from the spec: the Unix process environment seen by the read
path. `prioRet` is the genuine niceness the `getpriority` query reports on
success (possibly negative); `failErrno` is `some e` when the query fails
setting `errno` to `e`, and `none` when it succeeds leaving `errno` alone. -/
structure UnixReadEnv where
  prioRet : Int
  failErrno : Option Int
deriving DecidableEq, Repr

/-- Modelled from the spec: the native `getpriority(PRIO_PROCESS, 0)` query.
It takes the current `errno` value and returns the raw query result paired
with the `errno` value after the call: on failure it returns -1 and sets
`errno`; on success it returns the niceness and leaves `errno` unchanged. -/
def getpriorityCall (errno : Int) (env : UnixReadEnv) : Int × Int :=
  match env.failErrno with
  | some e => (-1, e)
  | none => (env.prioRet, errno)

/-- Embedding of the Unix branch of `get_current_process_priority` from
`src/lib.rs`: clear `errno` to 0 (`*errno_location() = 0`), run the
`getpriority` query, recheck the OS error, and fail exactly when the
post-call error indicator is nonzero; otherwise return the raw value. -/
def get_current_process_priority_unix (env : UnixReadEnv) : Except Int Int :=
  let r := getpriorityCall 0 env
  if r.2 ≠ 0 then Except.error r.2 else Except.ok r.1

/-- Modelled from the spec: the Windows thread environment seen by the write
path. `threadPriority` is the calling thread's real priority state,
`setSucceeds` whether the native `SetThreadPriority` call succeeds, and
`setFailMsg` the native failure message when it fails. -/
structure WinEnv where
  threadPriority : Int
  setSucceeds : Bool
  setFailMsg : String
deriving DecidableEq, Repr

/-- Modelled from the spec: the native `SetThreadPriority` call on the
current thread's handle: on success it applies the given native priority
value to the thread; on failure it reports its message and leaves the
thread's priority unchanged. -/
def SetThreadPriority (np : Int) (env : WinEnv) : Except String Unit × WinEnv :=
  if env.setSucceeds then (Except.ok (), { env with threadPriority := np })
  else (Except.error env.setFailMsg, env)

/-- Result of one call to the Windows write operation: the returned code or
error, the environment after the call, and whether the native
`SetThreadPriority` call was attempted. -/
structure WinWriteResult where
  result : Except NapiError Int
  env : WinEnv
  setCalled : Bool
deriving Repr

/-- Embedding of the Windows branch of `nice` from `src/lib.rs`: default the
increment to 0, validate it via `TryFrom<i32>` (early-returning the
`InvalidArg` error before any priority-changing call), then apply the mapped
native constant with `SetThreadPriority` (wrapping a native failure as
`GenericFailure` with the native message), and on success return the
validated level's own integer code. -/
def nice_windows (incr : Option Int) (env : WinEnv) : WinWriteResult :=
  let i := incr.getD 0
  match tryFromI32 i with
  | Except.error e => ⟨Except.error e, env, false⟩
  | Except.ok p =>
    match SetThreadPriority (toTHREAD_PRIORITY p) env with
    | (Except.error msg, env1) => ⟨Except.error ⟨NapiStatus.GenericFailure, msg⟩, env1, true⟩
    | (Except.ok _, env1) => ⟨Except.ok p.toI32, env1, true⟩

/-- The `THREAD_PRIORITY_ERROR_RETURN` sentinel (`MAXLONG`), as an `i32`. -/
def THREAD_PRIORITY_ERROR_RETURN : Int := 0x7FFFFFFF

/-- Modelled from the spec: the Windows thread environment seen by the read
path. `getRet` is the raw value `GetThreadPriority` returns (the sentinel on
failure), `lastError` the last OS error code. -/
structure WinReadEnv where
  getRet : Int
  lastError : Int
deriving DecidableEq, Repr

/-- Embedding of the Windows branch of `get_current_process_priority` from
`src/lib.rs`: query the current thread's priority and fail with the last OS
error exactly when the returned value is the error sentinel; otherwise
return the raw code unchanged. -/
def get_current_process_priority_windows (env : WinReadEnv) : Except Int Int :=
  if env.getRet = THREAD_PRIORITY_ERROR_RETURN then Except.error env.lastError
  else Except.ok env.getRet

/-- C1: on Unix, `get_current_process_priority` clears the thread-local OS
error indicator before the `getpriority` query (embedded by passing errno 0
into the query model) and inspects it after: it returns an error exactly
when the post-call error indicator is nonzero, and whenever the query
succeeds (error indicator left at zero), the returned integer — even a
negative one — is returned successfully rather than as a false failure. -/
theorem c1_unix_read_errno_protocol (env : UnixReadEnv) :
    ((∃ e, get_current_process_priority_unix env = Except.error e) ↔
      (getpriorityCall 0 env).2 ≠ 0) ∧
    (env.failErrno = none →
      get_current_process_priority_unix env = Except.ok env.prioRet) := by
  rcases env with ⟨ret, fe⟩
  cases fe with
  | none => simp [get_current_process_priority_unix, getpriorityCall]
  | some e =>
    by_cases he : e = 0 <;>
      simp [get_current_process_priority_unix, getpriorityCall, he]

theorem c1_witness :
    get_current_process_priority_unix ⟨-7, none⟩ = Except.ok (-7) :=
  (c1_unix_read_errno_protocol ⟨-7, none⟩).2 rfl

/-- C2: on Windows, `nice` called with any integer outside the nine
recognized priority codes fails immediately with an `InvalidArg` error whose
message carries the offending value, the native `SetThreadPriority` call is
not attempted, and the thread's real priority state is unchanged. -/
theorem c2_windows_invalid_rejected_before_os_call (v : Int) (env : WinEnv)
    (hv : v ∉ ninecodes) :
    nice_windows (some v) env =
      ⟨Except.error ⟨NapiStatus.InvalidArg, toString v ++ " is not a valid priority on Windows"⟩,
        env, false⟩ := by
  have h := tryFromI32_error_of_not_mem v hv
  simp [nice_windows, h]

theorem c2_witness :
    nice_windows (some 99) ⟨0, true, ""⟩ =
      ⟨Except.error ⟨NapiStatus.InvalidArg, toString (99 : Int) ++ " is not a valid priority on Windows"⟩,
        ⟨0, true, ""⟩, false⟩ :=
  c2_windows_invalid_rejected_before_os_call 99 ⟨0, true, ""⟩ (by decide)

/-- C5: on Unix, `nice` always attempts the native adjustment call (no range
validation beforehand), on success returns exactly the resulting absolute
niceness (the OS-clamped sum of the prior niceness and the delta, which is
also the new process niceness), and when the native call returns the
sentinel -1 it surfaces the current OS error. -/
theorem c5_unix_nice_relative_adjustment (incr : Int) (env : UnixEnv) :
    (nice_unix (some incr) env).osCalled = true ∧
    (∀ v, (nice_unix (some incr) env).result = Except.ok v →
      v = clampNice (env.niceVal + incr) ∧
      (nice_unix (some incr) env).env.niceVal = v) ∧
    ((libcNice incr env).1 = -1 →
      (nice_unix (some incr) env).result = Except.error ((libcNice incr env).2).errno) := by
  by_cases hp : env.nicePermitted <;>
    by_cases hm : clampNice (env.niceVal + incr) = -1 <;>
      simp_all [nice_unix, libcNice]

theorem c5_witness :
    (5 : Int) = clampNice (0 + 5) ∧
      (nice_unix (some 5) ⟨0, 0, true, 1⟩).env.niceVal = 5 :=
  (c5_unix_nice_relative_adjustment 5 ⟨0, 0, true, 1⟩).2.1 5 (by rfl)

/-- C6 (counterexample): the claim fails as stated. At starting niceness -1,
`nice` with delta 0 reports an error (the resulting value collides with the
-1 sentinel) instead of succeeding; and from starting niceness 0, calling
with deltas 100 then -100 ends at the clamp floor while a single call with
delta 0 = 100 + (-100) leaves the niceness at 0. -/
theorem c6_counterexample :
    (nice_unix (some 0) ⟨-1, 0, true, 1⟩).result = Except.error 0 ∧
    (nice_unix (some (-100)) (nice_unix (some 100) ⟨0, 0, true, 1⟩).env).env.niceVal ≠
      (nice_unix (some (0 : Int)) ⟨0, 0, true, 1⟩).env.niceVal := by
  constructor
  · rfl
  · decide

/-- C6 (amended): when the OS permits the adjustment, delta 0 from any
in-range starting niceness other than -1 succeeds and returns the prior
priority unchanged; and two calls with deltas d1 then d2 yield the same
final priority as one call with d1 + d2, provided the intermediate result
is within the OS clamping range and neither the intermediate nor the final
result collides with the -1 sentinel. -/
theorem c6_unix_nice_algebra_amended (env : UnixEnv) (d1 d2 : Int) :
    (env.nicePermitted = true → -20 ≤ env.niceVal → env.niceVal ≤ 19 →
      env.niceVal ≠ -1 →
      (nice_unix (some 0) env).result = Except.ok env.niceVal ∧
      (nice_unix (some 0) env).env.niceVal = env.niceVal) ∧
    (env.nicePermitted = true → -20 ≤ env.niceVal + d1 → env.niceVal + d1 ≤ 19 →
      env.niceVal + d1 ≠ -1 → clampNice (env.niceVal + (d1 + d2)) ≠ -1 →
      (nice_unix (some d2) (nice_unix (some d1) env).env).env.niceVal =
        (nice_unix (some (d1 + d2)) env).env.niceVal ∧
      (nice_unix (some d2) (nice_unix (some d1) env).env).result =
        Except.ok (clampNice (env.niceVal + (d1 + d2))) ∧
      (nice_unix (some (d1 + d2)) env).result =
        Except.ok (clampNice (env.niceVal + (d1 + d2)))) := by
  constructor
  · intro hp h1 h2 h3
    have hc : clampNice env.niceVal = env.niceVal := by
      simp only [clampNice]
      omega
    simp [nice_unix, libcNice, hp, hc, h3]
  · intro hp h1 h2 h3 h4
    have hc1 : clampNice (env.niceVal + d1) = env.niceVal + d1 := by
      simp only [clampNice]
      omega
    have hassoc : env.niceVal + d1 + d2 = env.niceVal + (d1 + d2) := by omega
    simp [nice_unix, libcNice, hp, hc1, h3, hassoc, h4]

theorem c6_witness :
    ((nice_unix (some 0) ⟨3, 0, true, 1⟩).result = Except.ok 3 ∧
      (nice_unix (some 0) ⟨3, 0, true, 1⟩).env.niceVal = 3) ∧
    ((nice_unix (some 5) (nice_unix (some 5) ⟨0, 0, true, 1⟩).env).env.niceVal =
        (nice_unix (some (5 + 5)) ⟨0, 0, true, 1⟩).env.niceVal ∧
      (nice_unix (some 5) (nice_unix (some 5) ⟨0, 0, true, 1⟩).env).result =
        Except.ok (clampNice (0 + (5 + 5))) ∧
      (nice_unix (some (5 + 5)) ⟨0, 0, true, 1⟩).result =
        Except.ok (clampNice (0 + (5 + 5)))) :=
  ⟨(c6_unix_nice_algebra_amended ⟨3, 0, true, 1⟩ 0 0).1 rfl (by decide) (by decide) (by decide),
   (c6_unix_nice_algebra_amended ⟨0, 0, true, 1⟩ 5 5).2 rfl (by decide) (by decide)
     (by decide) (by decide)⟩

/-- C7: on Windows, whenever `nice` succeeds, the value it returns equals
the input code itself — it is the integer code of the validated level, not a
re-query of the OS. -/
theorem c7_windows_success_echoes_input (incr : Int) (env : WinEnv) (v : Int)
    (h : (nice_windows (some incr) env).result = Except.ok v) : v = incr := by
  cases htf : tryFromI32 incr with
  | error e => simp [nice_windows, htf] at h
  | ok p =>
    have hip := tryFromI32_toI32_of_ok incr p htf
    by_cases hs : env.setSucceeds
    · simp [nice_windows, htf, SetThreadPriority, hs] at h
      omega
    · simp [nice_windows, htf, SetThreadPriority, hs] at h

theorem c7_witness :
    (nice_windows (some 2) ⟨0, true, ""⟩).result = Except.ok 2 ∧ (2 : Int) = 2 :=
  ⟨rfl, c7_windows_success_echoes_input 2 ⟨0, true, ""⟩ 2 rfl⟩

/-- C8: on Windows, `get_current_process_priority` fails with the last OS
error exactly when the native query returns the `THREAD_PRIORITY_ERROR_RETURN`
sentinel, and otherwise returns the raw integer priority code unchanged. -/
theorem c8_windows_read_sentinel (env : WinReadEnv) :
    (env.getRet = THREAD_PRIORITY_ERROR_RETURN →
      get_current_process_priority_windows env = Except.error env.lastError) ∧
    (env.getRet ≠ THREAD_PRIORITY_ERROR_RETURN →
      get_current_process_priority_windows env = Except.ok env.getRet) := by
  constructor <;> intro h <;> simp [get_current_process_priority_windows, h]

theorem c8_witness :
    get_current_process_priority_windows ⟨0x7FFFFFFF, 5⟩ = Except.error 5 ∧
    get_current_process_priority_windows ⟨2, 0⟩ = Except.ok 2 :=
  ⟨(c8_windows_read_sentinel ⟨0x7FFFFFFF, 5⟩).1 rfl,
   (c8_windows_read_sentinel ⟨2, 0⟩).2 (by decide)⟩

/-- C9: `nice` called with an absent increment defaults it to 0 and behaves
identically to an explicit call with 0, on both platform branches and from
every environment. -/
theorem c9_default_increment_zero (uenv : UnixEnv) (wenv : WinEnv) :
    nice_unix none uenv = nice_unix (some 0) uenv ∧
    nice_windows none wenv = nice_windows (some 0) wenv :=
  ⟨rfl, rfl⟩

/-- C10: on Unix, `nice` decides failure solely from the raw native return
value being -1 (no errno clear-and-recheck on the write path): the result is
an error exactly when the native call returns -1; consequently, whenever the
OS permits the adjustment and the legitimately resulting absolute niceness
is -1, the operation reports an error carrying the stale pre-call errno
(possibly zero) instead of returning -1 successfully. -/
theorem c10_unix_write_sentinel_only (incr : Int) (env : UnixEnv) :
    ((∃ e, (nice_unix (some incr) env).result = Except.error e) ↔
      (libcNice incr env).1 = -1) ∧
    (env.nicePermitted = true → clampNice (env.niceVal + incr) = -1 →
      (nice_unix (some incr) env).result = Except.error env.errno) := by
  constructor
  · by_cases hm : (libcNice incr env).1 = -1 <;> simp [nice_unix, hm]
  · intro hp hm
    simp [nice_unix, libcNice, hp, hm]

theorem c10_witness :
    (nice_unix (some 0) ⟨-1, 7, true, 1⟩).result = Except.error 7 :=
  (c10_unix_write_sentinel_only 0 ⟨-1, 7, true, 1⟩).2 rfl (by decide)
